import Mathlib

/-!
Verification of the yurt process-orchestration and port-forwarding core.

The definitions below are a shallow embedding of the Python sources:
  * `src/yurt/vboxmanage.py` — `_setUpPortForwarding` (the Port Forwarding
    Negotiator), with hypervisor commands and probe invocations recorded as
    an explicit event trace;
  * `src/yurt/util.py` — `retry` (the Retry Engine) and `_run` (the Command
    Executor's failure mapping);
  * `src/yurt/config.py` — the Config Store (`get_config`, `set_config`,
    `clear`) over an explicit file-system state.
External nondeterminism (probe verdicts, hypervisor command success, the
random port stream, write success) is supplied through oracle functions
indexed by call count.
-/

namespace Yurt

/-! ## Port Forwarding Negotiator (`src/yurt/vboxmanage.py`) -/

/-- An observable operation emitted by `_setUpPortForwarding`: a hypervisor
rule-removal command, a hypervisor rule-addition command (with the host and
guest ports embedded in the command line), or an invocation of the injected
reachability probe on a host port. -/
inductive Event where
  | removeRule : Event
  | addRule (hostPort guestPort : Nat) : Event
  | probe (hostPort : Nat) : Event
deriving DecidableEq, Repr

/-- `VBoxManageError`, distinguished by the message the source attaches:
`setupError` is `"An error occurred while setting up SSH"` (raised when the
add-rule command fails), `exhausted` is the final
`"Set up forwarding {rule},{hostPort}:{guestPort} but service in guest does
not appear to be available."` message with its embedded rule name and ports. -/
inductive VBoxManageError where
  | setupError : VBoxManageError
  | exhausted (ruleName : String) (hostPort guestPort : Nat) : VBoxManageError
deriving DecidableEq, Repr

/-- The environment `_setUpPortForwarding` runs against:
`probe n p` is the verdict of the `n`-th probe invocation (0-based, counting
the pre-loop probe) on host port `p`; `addOk n` tells whether the `n`-th
add-rule command succeeds (a failed one raises `VBoxManageError` in `_run`);
`rand n` is the `n`-th result of `random.randrange(lowPort, highPort)`.
Remove-rule commands need no oracle: the source swallows any failure
(`try: self._run(removeRuleCmd) except: pass`). -/
structure Env where
  probe : Nat → Nat → Bool
  addOk : Nat → Bool
  rand : Nat → Nat

/-- The `while (retryCount > 0) and not connected` loop of
`_setUpPortForwarding`, entered only when the pre-loop probe failed.
`iter` counts completed loop iterations, which indexes the oracles: the
add-rule command of iteration `k` is add call `k`, its probe is probe call
`k + 1`, and its port reselection is rand call `k`.  Returns the emitted
event trace and the outcome (`Except.ok hostPort` or the raised error). -/
def negotiateLoop (env : Env) (ruleName : String) (guestPort : Nat) :
    Nat → Nat → Nat → List Event × Except VBoxManageError Nat
  | 0, hostPort, _ =>
    ([], Except.error (VBoxManageError.exhausted ruleName hostPort guestPort))
  | retryCount + 1, hostPort, iter =>
    if env.addOk iter then
      if env.probe (iter + 1) hostPort then
        ([Event.removeRule, Event.addRule hostPort guestPort, Event.probe hostPort],
         Except.ok hostPort)
      else
        (Event.removeRule :: Event.addRule hostPort guestPort :: Event.probe hostPort ::
          (negotiateLoop env ruleName guestPort retryCount (env.rand iter) (iter + 1)).1,
         (negotiateLoop env ruleName guestPort retryCount (env.rand iter) (iter + 1)).2)
    else
      ([Event.removeRule, Event.addRule hostPort guestPort],
       Except.error VBoxManageError.setupError)

/-- `hostPort = initialHostPort or lowPort`: Python's `or` falls through to
`lowPort` (4000) when `initialHostPort` is `None` or the falsy port `0`. -/
def initialPort (initialHostPort : Option Nat) : Nat :=
  match initialHostPort with
  | none => 4000
  | some p => if p = 0 then 4000 else p

/-- `_setUpPortForwarding(vmName, config, ruleName, initialHostPort,
guestPort, isServiceAvailableOnPort)`: probe the initial host port once; if
unreachable, run the negotiation loop with `retryCount = 5`.  Returns the
emitted event trace together with the outcome. -/
def setUpPortForwarding (env : Env) (ruleName : String)
    (initialHostPort : Option Nat) (guestPort : Nat) :
    List Event × Except VBoxManageError Nat :=
  if env.probe 0 (initialPort initialHostPort) then
    ([Event.probe (initialPort initialHostPort)],
     Except.ok (initialPort initialHostPort))
  else
    (Event.probe (initialPort initialHostPort) ::
      (negotiateLoop env ruleName guestPort 5 (initialPort initialHostPort) 0).1,
     (negotiateLoop env ruleName guestPort 5 (initialPort initialHostPort) 0).2)

/-- `true` exactly on remove-rule events. -/
def isRemoveEvent : Event → Bool
  | Event.removeRule => true
  | _ => false

/-- `true` exactly on add-rule events. -/
def isAddEvent : Event → Bool
  | Event.addRule _ _ => true
  | _ => false

/-- `true` exactly on probe events. -/
def isProbeEvent : Event → Bool
  | Event.probe _ => true
  | _ => false

/-- The host port carried by a probe event, if any. -/
def probedPort : Event → Option Nat
  | Event.probe p => some p
  | _ => none

/-! ## Retry Engine (`src/yurt/util.py`, `retry`) -/

/-- The body of `retry(fn, retries, wait_time)`.  The operation `op` is
modelled as a function of its invocation index (`op idx` is the outcome of
the `(idx+1)`-th call of `fn`), so a stateful operation may succeed on a
later attempt.  Returns the number of invocations made together with the
result: `fn()`'s value on the first success, or — once `retries` failures
of the remaining budget are spent — the error of the final invocation,
re-raised unchanged.  (`sleep_for(wait_time)` between attempts has no
observable effect beyond delay and is not recorded.) -/
def retryAux (op : Nat → Except ε α) : Nat → Nat → Nat × Except ε α
  | retries, idx =>
    match op idx with
    | Except.ok a => (1, Except.ok a)
    | Except.error e =>
      match retries with
      | 0 => (1, Except.error e)
      | r + 1 =>
        let rest := retryAux op r (idx + 1)
        (rest.1 + 1, rest.2)

/-- `retry(fn, retries=3, wait_time=3)`: run `retryAux` from invocation 0.
`waitTime` is carried for signature fidelity; the source only sleeps on it. -/
def retryRun (op : Nat → Except ε α) (retries : Nat) (waitTime : Nat) :
    Nat × Except ε α :=
  let _ := waitTime
  retryAux op retries 0

/-! ## Command Executor (`src/yurt/util.py`, `_run`) -/

/-- How one external invocation ends, from `_run`'s point of view:
`completed exitCode stdout stderr` (maps to `subprocess.run` returning, or
raising `CalledProcessError` when `check=True` sees `exitCode ≠ 0`),
`timedOut` (`subprocess.TimeoutExpired`), or `interrupted`
(`KeyboardInterrupt` delivered during the call). -/
inductive ProcOutcome where
  | completed (exitCode : Nat) (stdout stderr : String)
  | timedOut
  | interrupted
deriving DecidableEq, Repr

/-- The typed errors `_run` raises, with their messages:
`YurtCalledProcessException` (the spec's `ProcessFailed`) and
`YurtCalledProcessTimeout` (the spec's `ProcessTimedOut`). -/
inductive YurtError where
  | calledProcessFailed (message : String)
  | calledProcessTimeout (message : String)
deriving DecidableEq, Repr

/-- The `try`/`except` dispatch of `_run(cmd, ...)` on the outcome of the
underlying `subprocess.run` call: a zero exit returns `res.stdout`; a
non-zero exit logs the captured output and raises
`YurtCalledProcessException("Operation failed.")`; a timeout raises
`YurtCalledProcessTimeout("Operation timed out.")`; a `KeyboardInterrupt`
is logged (`"Operation Aborted"`) and swallowed, so the function returns
`None` — no stdout and no typed error. -/
def runCmd (outcome : ProcOutcome) : Except YurtError (Option String) :=
  match outcome with
  | ProcOutcome.completed exitCode stdout _ =>
    if exitCode = 0 then
      Except.ok (some stdout)
    else
      Except.error (YurtError.calledProcessFailed "Operation failed.")
  | ProcOutcome.timedOut =>
    Except.error (YurtError.calledProcessTimeout "Operation timed out.")
  | ProcOutcome.interrupted => Except.ok none

/-! ## Config Store (`src/yurt/config.py`) -/

/-- The `Key` enumeration of `src/yurt/config.py`. -/
inductive Key where
  | vm_name
  | interface
  | interface_ip_address
  | interface_netmask
  | ssh_port
  | is_lxd_initialized
deriving DecidableEq, Repr

/-- The persisted flat mapping (the parsed JSON object), keys serialized by
name.  Modelled as an association list updated by replace-or-add. -/
def ConfigMap := List (Key × String)
deriving DecidableEq

/-- `config.get(key.name, None)`: dict lookup with a `None` default. -/
def lookupKey (k : Key) (m : ConfigMap) : Option String :=
  List.lookup k m

/-- `new = old.copy(); new[key.name] = value`: structural copy with the key
replaced or added (the original mapping is untouched). -/
def storeKey (k : Key) (v : String) (m : ConfigMap) : ConfigMap :=
  m.filter (fun e => !decide (e.1 = k)) ++ [(k, v)]

/-- What the config file holds on disk: absent, present but not parseable
as JSON (`json.JSONDecodeError`), parsing to JSON `null` (so `json.load`
returns `None`), or parsing to an object. -/
inductive FileContent where
  | missing
  | malformed
  | nullValue
  | obj (m : ConfigMap)
deriving DecidableEq

/-- The Config Store's file-system state: the config file's content plus a
counter of write attempts made so far, which indexes the write-success
oracle. -/
structure FS where
  file : FileContent
  writeIdx : Nat
deriving DecidableEq

/-- `ConfigReadException` / `ConfigWriteException` from `yurt.exceptions`. -/
inductive ConfigException where
  | readError
  | writeError
deriving DecidableEq, Repr

/-- `_ensure_config_file_exists()`: create the file with content `{}` when
it is missing; otherwise leave the state alone.  Idempotent. -/
def ensureConfigFileExists (fs : FS) : FS :=
  match fs.file with
  | FileContent.missing => { fs with file := FileContent.obj [] }
  | _ => fs

/-- `_read_config()`: ensure the file exists, then `json.load` it.  A
malformed file raises `ConfigReadException`; JSON `null` yields Python
`None` (`Except.ok none`); an object yields the mapping. -/
def readConfig (fs : FS) : Except ConfigException (Option ConfigMap) × FS :=
  let fs₁ := ensureConfigFileExists fs
  match fs₁.file with
  | FileContent.missing => (Except.error ConfigException.readError, fs₁)
  | FileContent.malformed => (Except.error ConfigException.readError, fs₁)
  | FileContent.nullValue => (Except.ok none, fs₁)
  | FileContent.obj m => (Except.ok (some m), fs₁)

/-- `_write_config(config)`: ensure the file exists, then dump the mapping.
`w` is the write-success oracle: the `n`-th write attempt succeeds iff
`w n`; a failed attempt raises `ConfigWriteException` and (writes being
modelled as atomic commits) leaves the file unchanged.  Every attempt
advances the write counter. -/
def writeConfig (w : Nat → Bool) (m : ConfigMap) (fs : FS) :
    Except ConfigException Unit × FS :=
  let fs₁ := ensureConfigFileExists fs
  if w fs₁.writeIdx then
    (Except.ok (), { file := FileContent.obj m, writeIdx := fs₁.writeIdx + 1 })
  else
    (Except.error ConfigException.writeError, { fs₁ with writeIdx := fs₁.writeIdx + 1 })

/-- `get_config(key)`: read the mapping; `if config:` guards the lookup, so
a `None` (JSON null) or empty mapping yields Python `None`.  A read failure
propagates `ConfigReadException`. -/
def getConfig (k : Key) (fs : FS) : Except ConfigException (Option String) × FS :=
  match readConfig fs with
  | (Except.error e, fs₁) => (Except.error e, fs₁)
  | (Except.ok none, fs₁) => (Except.ok none, fs₁)
  | (Except.ok (some m), fs₁) =>
    if m.isEmpty then (Except.ok none, fs₁)
    else (Except.ok (lookupKey k m), fs₁)

/-- `set_config(key, value)`: read the old mapping (a read failure
propagates), return silently if it is `None`, otherwise commit the copy
with the key stored; if the commit raises `ConfigWriteException`, rewrite
the old snapshot and then re-raise `ConfigWriteException` (a failure of the
rollback write itself propagates, still as `ConfigWriteException`). -/
def setConfig (w : Nat → Bool) (k : Key) (v : String) (fs : FS) :
    Except ConfigException Unit × FS :=
  match readConfig fs with
  | (Except.error e, fs₁) => (Except.error e, fs₁)
  | (Except.ok none, fs₁) => (Except.ok (), fs₁)
  | (Except.ok (some old), fs₁) =>
    match writeConfig w (storeKey k v old) fs₁ with
    | (Except.ok _, fs₂) => (Except.ok (), fs₂)
    | (Except.error _, fs₂) =>
      match writeConfig w old fs₂ with
      | (Except.ok _, fs₃) => (Except.error ConfigException.writeError, fs₃)
      | (Except.error e, fs₃) => (Except.error e, fs₃)

/-- `clear()`: replace the whole store with the empty mapping; a write
failure propagates as `ConfigWriteException`. -/
def clearConfig (w : Nat → Bool) (fs : FS) : Except ConfigException Unit × FS :=
  writeConfig w [] fs

/-! ## Concrete environments used to instantiate the theorems -/

/-- A probe that reports every port reachable, with healthy hypervisor
commands. -/
def envAllReachable : Env :=
  { probe := fun _ _ => true, addOk := fun _ => true, rand := fun _ => 4000 }

/-- A probe that reports every port unreachable, healthy hypervisor
commands, and the deterministic random stream 4010, 4011, 4012, ... -/
def envNeverReachable : Env :=
  { probe := fun _ _ => false, addOk := fun _ => true, rand := fun n => 4010 + n }

/-- A write oracle that always succeeds. -/
def alwaysWriteOk : Nat → Bool := fun _ => true

/-- A fresh store whose file holds the empty JSON object. -/
def emptyFS : FS := { file := FileContent.obj [], writeIdx := 0 }

/-! ## Negotiator lemmas -/

/-- One-step unfolding of the loop at a zero budget. -/
lemma negotiateLoop_zero (env : Env) (r : String) (g hp it : Nat) :
    negotiateLoop env r g 0 hp it =
      ([], Except.error (VBoxManageError.exhausted r hp g)) := rfl

/-- One-step unfolding of the loop at a positive budget. -/
lemma negotiateLoop_succ (env : Env) (r : String) (g n hp it : Nat) :
    negotiateLoop env r g (n + 1) hp it =
      if env.addOk it then
        if env.probe (it + 1) hp then
          ([Event.removeRule, Event.addRule hp g, Event.probe hp], Except.ok hp)
        else
          (Event.removeRule :: Event.addRule hp g :: Event.probe hp ::
            (negotiateLoop env r g n (env.rand it) (it + 1)).1,
           (negotiateLoop env r g n (env.rand it) (it + 1)).2)
      else
        ([Event.removeRule, Event.addRule hp g],
          Except.error VBoxManageError.setupError) := rfl

/-- With an always-unreachable probe and healthy add commands, a loop with
budget `n` emits exactly `n` add-rule and `n` remove-rule commands and ends
in the exhaustion error, naming the host port selected by the final
reselection (`env.rand (it + n - 1)` for a positive budget). -/
lemma negotiateLoop_all_fail (env : Env) (r : String) (g : Nat)
    (hprobe : ∀ n p, env.probe n p = false) (haddOk : ∀ n, env.addOk n = true) :
    ∀ n it hp,
      (negotiateLoop env r g n hp it).1.countP isAddEvent = n ∧
      (negotiateLoop env r g n hp it).1.countP isRemoveEvent = n ∧
      (negotiateLoop env r g n hp it).2 =
        Except.error (VBoxManageError.exhausted r
          (match n with
           | 0 => hp
           | Nat.succ m => env.rand (it + m)) g) := by
  intro n
  induction n with
  | zero =>
    intro it hp
    simp [negotiateLoop_zero]
  | succ n ih =>
    intro it hp
    obtain ⟨ih₁, ih₂, ih₃⟩ := ih (it + 1) (env.rand it)
    rw [negotiateLoop_succ]
    simp only [haddOk it, hprobe (it + 1) hp, if_true, if_false, Bool.false_eq_true,
      ite_false, ite_true]
    refine ⟨?_, ?_, ?_⟩
    · simp [List.countP_cons, isAddEvent, ih₁]
    · simp [List.countP_cons, isRemoveEvent, ih₂]
    · rw [ih₃]
      cases n with
      | zero => simp
      | succ m =>
        have harg : it + 1 + m = it + (m + 1) := by omega
        simp [harg]

/-- Traces emitted by the negotiation loop: a sequence of attempts, each
beginning with a remove-rule command, followed by the add-rule command for
the attempt's host port, followed — unless the add failed and aborted the
run — by the probe of that same port. -/
inductive LoopTrace (g : Nat) : List Event → Prop where
  | nil : LoopTrace g []
  | addFail (p : Nat) : LoopTrace g [Event.removeRule, Event.addRule p g]
  | attempt (p : Nat) (rest : List Event) (h : LoopTrace g rest) :
      LoopTrace g (Event.removeRule :: Event.addRule p g :: Event.probe p :: rest)

/-- Every trace of `negotiateLoop` has the attempt-block shape. -/
lemma negotiateLoop_loopTrace (env : Env) (r : String) (g : Nat) :
    ∀ n it hp, LoopTrace g (negotiateLoop env r g n hp it).1 := by
  intro n
  induction n with
  | zero =>
    intro it hp
    exact LoopTrace.nil
  | succ n ih =>
    intro it hp
    rw [negotiateLoop_succ]
    cases ha : env.addOk it with
    | false =>
      simp only [ha, Bool.false_eq_true, ite_false]
      exact LoopTrace.addFail hp
    | true =>
      simp only [ha, ite_true]
      cases hb : env.probe (it + 1) hp with
      | true =>
        simp only [hb, ite_true]
        exact LoopTrace.attempt hp [] LoopTrace.nil
      | false =>
        simp only [hb, Bool.false_eq_true, ite_false]
        exact LoopTrace.attempt hp _ (ih (it + 1) (env.rand it))

/-- In a loop trace, every add-rule command is immediately preceded by a
remove-rule command. -/
lemma LoopTrace.add_preceded {g : Nat} {tr : List Event} (h : LoopTrace g tr) :
    ∀ i p gp, tr.get? i = some (Event.addRule p gp) →
      ∃ j, i = j + 1 ∧ tr.get? j = some Event.removeRule := by
  induction h with
  | nil =>
    intro i p gp hi
    simp at hi
  | addFail q =>
    intro i p gp hi
    match i with
    | 0 => simp at hi
    | 1 => exact ⟨0, rfl, rfl⟩
    | Nat.succ (Nat.succ m) => simp at hi
  | attempt q rest hrest ih =>
    intro i p gp hi
    match i with
    | 0 => simp at hi
    | 1 => exact ⟨0, rfl, rfl⟩
    | 2 => simp at hi
    | Nat.succ (Nat.succ (Nat.succ m)) =>
      obtain ⟨j, hj, hget⟩ := ih m p gp (by simpa using hi)
      exact ⟨j + 3, by omega, by simpa using hget⟩

/-- In a loop trace, every probe is immediately preceded by the add-rule
command for the very port it tests. -/
lemma LoopTrace.probe_preceded {g : Nat} {tr : List Event} (h : LoopTrace g tr) :
    ∀ i p, tr.get? i = some (Event.probe p) →
      ∃ j, i = j + 1 ∧ tr.get? j = some (Event.addRule p g) := by
  induction h with
  | nil =>
    intro i p hi
    simp at hi
  | addFail q =>
    intro i p hi
    match i with
    | 0 => simp at hi
    | 1 => simp at hi
    | Nat.succ (Nat.succ m) => simp at hi
  | attempt q rest hrest ih =>
    intro i p hi
    match i with
    | 0 => simp at hi
    | 1 => simp at hi
    | 2 =>
      have hq : q = p := by simpa using hi
      exact ⟨1, rfl, by simp [hq]⟩
    | Nat.succ (Nat.succ (Nat.succ m)) =>
      obtain ⟨j, hj, hget⟩ := ih m p (by simpa using hi)
      exact ⟨j + 3, by omega, by simpa using hget⟩

/-! ## Claim theorems: Port Forwarding Negotiator -/

/-- C1: within one run of `_setUpPortForwarding`, every emitted rule-addition
command is immediately preceded by a rule-removal command, and every probe
invocation other than the pre-loop probe of the initial port (which belongs
to no attempt) is immediately preceded by the rule-addition for exactly the
host port it tests — so in every attempt, including across consecutive
failed attempts, remove precedes add and add precedes probe. -/
theorem setUp_ordering (env : Env) (ruleName : String)
    (initialHostPort : Option Nat) (guestPort : Nat) :
    (∀ i p gp,
      (setUpPortForwarding env ruleName initialHostPort guestPort).1.get? i =
        some (Event.addRule p gp) →
      ∃ j, i = j + 1 ∧
        (setUpPortForwarding env ruleName initialHostPort guestPort).1.get? j =
          some Event.removeRule) ∧
    (∀ i p,
      (setUpPortForwarding env ruleName initialHostPort guestPort).1.get? i =
        some (Event.probe p) →
      i = 0 ∨ ∃ j, i = j + 1 ∧
        (setUpPortForwarding env ruleName initialHostPort guestPort).1.get? j =
          some (Event.addRule p guestPort)) := by
  have hloop := negotiateLoop_loopTrace env ruleName guestPort 5 0
    (initialPort initialHostPort)
  unfold setUpPortForwarding
  cases hpb : env.probe 0 (initialPort initialHostPort) with
  | true =>
    simp only [hpb, ite_true]
    constructor
    · intro i p gp hi
      match i with
      | 0 => simp at hi
      | Nat.succ m => simp at hi
    · intro i p hi
      match i with
      | 0 => exact Or.inl rfl
      | Nat.succ m => simp at hi
  | false =>
    simp only [hpb, Bool.false_eq_true, ite_false]
    constructor
    · intro i p gp hi
      match i with
      | 0 => simp at hi
      | Nat.succ m =>
        obtain ⟨j, hj, hget⟩ := hloop.add_preceded m p gp (by simpa using hi)
        exact ⟨j + 1, by omega, by simpa using hget⟩
    · intro i p hi
      match i with
      | 0 => exact Or.inl rfl
      | Nat.succ m =>
        obtain ⟨j, hj, hget⟩ := hloop.probe_preceded m p (by simpa using hi)
        exact Or.inr ⟨j + 1, by omega, by simpa using hget⟩

/-- C1 witness: in the concrete always-unreachable run, the add at trace
position 2 is preceded by a remove at position 1, and the probe at
position 3 is preceded by the add of the same port 4000 at position 2. -/
theorem setUp_ordering_witness :
    (∃ j, (2 : Nat) = j + 1 ∧
      (setUpPortForwarding envNeverReachable "lxd" none 8443).1.get? j =
        some Event.removeRule) ∧
    ((3 : Nat) = 0 ∨ ∃ j, (3 : Nat) = j + 1 ∧
      (setUpPortForwarding envNeverReachable "lxd" none 8443).1.get? j =
        some (Event.addRule 4000 8443)) :=
  ⟨(setUp_ordering envNeverReachable "lxd" none 8443).1 2 4000 8443 (by decide),
   (setUp_ordering envNeverReachable "lxd" none 8443).2 3 4000 (by decide)⟩

/-- C2: with a probe that is unreachable on every port (and healthy
hypervisor add commands), `_setUpPortForwarding` performs exactly the
configured `retryCount = 5` attempts — exactly 5 add-rule and 5 remove-rule
commands — and ends in the exhaustion `VBoxManageError` instead of
returning a host port. -/
theorem setUp_exhaustion (env : Env) (ruleName : String)
    (initialHostPort : Option Nat) (guestPort : Nat)
    (hprobe : ∀ n p, env.probe n p = false)
    (haddOk : ∀ n, env.addOk n = true) :
    (setUpPortForwarding env ruleName initialHostPort guestPort).2 =
      Except.error (VBoxManageError.exhausted ruleName (env.rand 4) guestPort) ∧
    (setUpPortForwarding env ruleName initialHostPort guestPort).1.countP
      isAddEvent = 5 ∧
    (setUpPortForwarding env ruleName initialHostPort guestPort).1.countP
      isRemoveEvent = 5 := by
  obtain ⟨h₁, h₂, h₃⟩ := negotiateLoop_all_fail env ruleName guestPort hprobe haddOk 5 0
    (initialPort initialHostPort)
  unfold setUpPortForwarding
  simp only [hprobe 0 (initialPort initialHostPort), Bool.false_eq_true, ite_false]
  refine ⟨?_, ?_, ?_⟩
  · exact h₃
  · simpa [List.countP_cons, isAddEvent] using h₁
  · simpa [List.countP_cons, isRemoveEvent] using h₂

/-- C2 witness: the concrete always-unreachable environment exhausts the 5
attempts, emitting 5 add-rule and 5 remove-rule commands and the exhaustion
error. -/
theorem setUp_exhaustion_witness :
    (setUpPortForwarding envNeverReachable "ssh" (some 4050) 22).2 =
      Except.error
        (VBoxManageError.exhausted "ssh" (envNeverReachable.rand 4) 22) ∧
    (setUpPortForwarding envNeverReachable "ssh" (some 4050) 22).1.countP
      isAddEvent = 5 ∧
    (setUpPortForwarding envNeverReachable "ssh" (some 4050) 22).1.countP
      isRemoveEvent = 5 :=
  setUp_exhaustion envNeverReachable "ssh" (some 4050) 22
    (fun _ _ => rfl) (fun _ => rfl)

/-- C3: evaluation of `_setUpPortForwarding` at a failing input — probe
unreachable everywhere, adds healthy, random stream 4010, 4011, ... — shows
the exhaustion error names host port 4014, the port selected by the final
reselection, while the last port actually probed (and last added as a rule)
is 4013: the error does not name the last-tried port, and no rule for 4014
was ever added. -/
theorem setUp_exhaustion_names_untried_port :
    (setUpPortForwarding envNeverReachable "ssh" (some 4050) 22).2 =
      Except.error (VBoxManageError.exhausted "ssh" 4014 22) ∧
    ((setUpPortForwarding envNeverReachable "ssh" (some 4050) 22).1.filterMap
      probedPort).getLast? = some 4013 ∧
    (4014 : Nat) ≠ 4013 ∧
    Event.addRule 4014 22 ∉
      (setUpPortForwarding envNeverReachable "ssh" (some 4050) 22).1 := by
  refine ⟨rfl, rfl, by decide, by decide⟩

/-- C10: when the injected probe reports the initial host port (the
remembered port, or 4000 when none is remembered) reachable on the very
first invocation, `_setUpPortForwarding` returns that port immediately:
the whole run is the single probe event, with zero remove-rule and zero
add-rule commands, leaving the hypervisor NAT table untouched. -/
theorem setUp_initial_reachable (env : Env) (ruleName : String)
    (initialHostPort : Option Nat) (guestPort : Nat)
    (h : env.probe 0 (initialPort initialHostPort) = true) :
    setUpPortForwarding env ruleName initialHostPort guestPort =
      ([Event.probe (initialPort initialHostPort)],
        Except.ok (initialPort initialHostPort)) ∧
    (setUpPortForwarding env ruleName initialHostPort guestPort).1.countP
      isRemoveEvent = 0 ∧
    (setUpPortForwarding env ruleName initialHostPort guestPort).1.countP
      isAddEvent = 0 ∧
    initialPort none = 4000 := by
  refine ⟨?_, ?_, ?_, rfl⟩
  · simp [setUpPortForwarding, h]
  · simp [setUpPortForwarding, h, List.countP_cons, isRemoveEvent]
  · simp [setUpPortForwarding, h, List.countP_cons, isAddEvent]

/-- C10 witness: with an everywhere-reachable probe and no remembered port,
the run returns 4000 after the single probe and no hypervisor commands. -/
theorem setUp_initial_reachable_witness :
    setUpPortForwarding envAllReachable "ssh" none 22 =
      ([Event.probe (initialPort none)], Except.ok (initialPort none)) ∧
    (setUpPortForwarding envAllReachable "ssh" none 22).1.countP
      isRemoveEvent = 0 ∧
    (setUpPortForwarding envAllReachable "ssh" none 22).1.countP
      isAddEvent = 0 ∧
    initialPort none = 4000 :=
  setUp_initial_reachable envAllReachable "ssh" none 22 rfl

/-! ## Retry Engine lemmas -/

/-- The invocation count of `retryAux` is at least 1 and at most
`retries + 1`. -/
lemma retryAux_count_bounds {ε α : Type} (op : Nat → Except ε α) :
    ∀ retries idx, 1 ≤ (retryAux op retries idx).1 ∧
      (retryAux op retries idx).1 ≤ retries + 1 := by
  intro retries
  induction retries with
  | zero =>
    intro idx
    unfold retryAux
    cases op idx <;> simp
  | succ r ih =>
    intro idx
    unfold retryAux
    cases op idx with
    | ok a => simp
    | error e =>
      have := ih (idx + 1)
      simp only []
      omega

/-- If the first `j` invocations (starting at `idx`) fail and the `j`-th
succeeds within budget, `retryAux` stops right there with the success. -/
lemma retryAux_first_success {ε α : Type} (op : Nat → Except ε α) :
    ∀ j retries idx a, j ≤ retries →
      (∀ i, i < j → ∃ e, op (idx + i) = Except.error e) →
      op (idx + j) = Except.ok a →
      retryAux op retries idx = (j + 1, Except.ok a) := by
  intro j
  induction j with
  | zero =>
    intro retries idx a _ _ hok
    unfold retryAux
    rw [show idx + 0 = idx from rfl] at hok
    rw [hok]
  | succ j ih =>
    intro retries idx a hle hfail hok
    obtain ⟨r, rfl⟩ : ∃ r, retries = r + 1 := ⟨retries - 1, by omega⟩
    obtain ⟨e₀, he₀⟩ := hfail 0 (by omega)
    rw [show idx + 0 = idx from rfl] at he₀
    unfold retryAux
    rw [he₀]
    have hrec := ih r (idx + 1) a (by omega)
      (fun i hi => by
        obtain ⟨e, he⟩ := hfail (i + 1) (by omega)
        exact ⟨e, by rw [show idx + 1 + i = idx + (i + 1) by omega]; exact he⟩)
      (by rw [show idx + 1 + j = idx + (j + 1) by omega]; exact hok)
    simp only [hrec]

/-- If every invocation within the budget fails, `retryAux` makes exactly
`retries + 1` invocations and re-raises the error of the final one. -/
lemma retryAux_all_fail {ε α : Type} (op : Nat → Except ε α) :
    ∀ retries idx,
      (∀ i, i ≤ retries → ∃ e, op (idx + i) = Except.error e) →
      ∃ e, op (idx + retries) = Except.error e ∧
        retryAux op retries idx = (retries + 1, Except.error e) := by
  intro retries
  induction retries with
  | zero =>
    intro idx hfail
    obtain ⟨e, he⟩ := hfail 0 (by omega)
    rw [show idx + 0 = idx from rfl] at he
    refine ⟨e, by rw [show idx + 0 = idx from rfl]; exact he, ?_⟩
    unfold retryAux
    rw [he]
  | succ r ih =>
    intro idx hfail
    obtain ⟨e₀, he₀⟩ := hfail 0 (by omega)
    rw [show idx + 0 = idx from rfl] at he₀
    obtain ⟨e, he, hrec⟩ := ih (idx + 1)
      (fun i hi => by
        obtain ⟨e', he'⟩ := hfail (i + 1) (by omega)
        exact ⟨e', by rw [show idx + 1 + i = idx + (i + 1) by omega]; exact he'⟩)
    refine ⟨e, by rw [show idx + (r + 1) = idx + 1 + r by omega]; exact he, ?_⟩
    unfold retryAux
    rw [he₀]
    simp only [hrec]

/-! ## Claim theorem: Retry Engine -/

/-- C4: `retry(op, n, w)` makes between 1 and `n + 1` invocations of `op`;
if the first `j` invocations fail and invocation `j` (within budget)
succeeds, it returns that success after exactly `j + 1` invocations; if all
`n + 1` invocations fail, it raises exactly the error of the final
invocation after exactly `n + 1` invocations; a budget of 0 makes exactly
one attempt. -/
theorem retry_spec {ε α : Type} (op : Nat → Except ε α) (n w : Nat) :
    (1 ≤ (retryRun op n w).1 ∧ (retryRun op n w).1 ≤ n + 1) ∧
    (∀ j a, j ≤ n → (∀ i, i < j → ∃ e, op i = Except.error e) →
      op j = Except.ok a → retryRun op n w = (j + 1, Except.ok a)) ∧
    ((∀ i, i ≤ n → ∃ e, op i = Except.error e) →
      ∃ e, op n = Except.error e ∧ retryRun op n w = (n + 1, Except.error e)) ∧
    ((retryRun op 0 w).1 = 1) := by
  refine ⟨retryAux_count_bounds op n 0, ?_, ?_, ?_⟩
  · intro j a hle hfail hok
    exact retryAux_first_success op j n 0 a hle
      (fun i hi => by simpa using hfail i hi) (by simpa using hok)
  · intro hfail
    obtain ⟨e, he, hrec⟩ := retryAux_all_fail op n 0
      (fun i hi => by simpa using hfail i hi)
    exact ⟨e, by simpa using he, hrec⟩
  · have hb := retryAux_count_bounds op 0 0
    have hr : retryRun op 0 w = retryAux op 0 0 := rfl
    rw [hr]
    omega

/-- C4 witness: the always-failing operation that raises its invocation
index: a budget of 2 makes exactly 3 invocations and re-raises the final
error, the one carrying index 2. -/
theorem retry_spec_witness :
    retryRun (fun i => (Except.error i : Except Nat Nat)) 2 7 =
      (3, Except.error 2) := by
  obtain ⟨e, he, hrun⟩ :=
    (retry_spec (fun i => (Except.error i : Except Nat Nat)) 2 7).2.2.1
      (fun i _ => ⟨i, rfl⟩)
  have he₂ : (2 : Nat) = e := Except.error.inj he
  rw [← he₂] at hrun
  exact hrun

/-! ## Claim theorems: Command Executor -/

/-- C8 counterexample: a process that exits with status 1 and stderr
`"boom"` makes `_run` raise `YurtCalledProcessException` with the constant
message `"Operation failed."`, not the captured stderr — refuting the claim
that the error message is the process's stderr. -/
theorem run_failed_message_not_stderr :
    runCmd (ProcOutcome.completed 1 "some output" "boom") =
      Except.error (YurtError.calledProcessFailed "Operation failed.") ∧
    YurtError.calledProcessFailed "Operation failed." ≠
      YurtError.calledProcessFailed "boom" := by
  refine ⟨rfl, by decide⟩

/-- C8 (amended): for every command whose process exits non-zero, `_run`
produces no result and raises `YurtCalledProcessException` whose message is
the constant `"Operation failed."`; the captured stderr is only logged. -/
theorem run_failed_constant_message (exitCode : Nat) (stdout stderr : String)
    (h : exitCode ≠ 0) :
    runCmd (ProcOutcome.completed exitCode stdout stderr) =
      Except.error (YurtError.calledProcessFailed "Operation failed.") := by
  simp [runCmd, h]

/-- C8 witness: exit status 1 with stderr `"boom"` raises the constant
message. -/
theorem run_failed_constant_message_witness :
    runCmd (ProcOutcome.completed 1 "some output" "boom") =
      Except.error (YurtError.calledProcessFailed "Operation failed.") :=
  run_failed_constant_message 1 "some output" "boom" (by decide)

/-- C9: a `KeyboardInterrupt` during command execution is swallowed by
`_run`: the call ends with neither `YurtCalledProcessException` nor
`YurtCalledProcessTimeout` raised, and no stdout result — Python's implicit
`None` return. -/
theorem run_interrupted_no_result :
    runCmd ProcOutcome.interrupted = Except.ok none := rfl

/-! ## Config Store lemmas -/

/-- Filtering out a key makes it unfindable. -/
lemma lookup_filter_self (k : Key) (m : ConfigMap) :
    List.lookup k (m.filter fun e => !decide (e.1 = k)) = none := by
  induction m with
  | nil => rfl
  | cons e m ih =>
    obtain ⟨k', v'⟩ := e
    by_cases h : k' = k
    · simpa [List.filter_cons, h] using ih
    · have hne : (k == k') = false := by
        simp [BEq.beq]
        exact fun hk => h hk.symm
      simp [List.filter_cons, h, List.lookup, hne, ih]

/-- Looking up the key just stored yields the stored value. -/
lemma lookupKey_storeKey (k : Key) (v : String) (m : ConfigMap) :
    lookupKey k (storeKey k v m) = some v := by
  unfold lookupKey storeKey
  induction m with
  | nil => simp [List.lookup]
  | cons e m ih =>
    obtain ⟨k', v'⟩ := e
    by_cases h : k' = k
    · simpa [List.filter_cons, h] using ih
    · have hne : (k == k') = false := by
        simp [BEq.beq]
        exact fun hk => h hk.symm
      simpa [List.filter_cons, List.lookup, h, hne] using ih

/-- A mapping with a key just stored is never the empty mapping. -/
lemma storeKey_isEmpty (k : Key) (v : String) (m : ConfigMap) :
    (storeKey k v m).isEmpty = false := by
  unfold storeKey
  cases h : m.filter fun e => !decide (e.1 = k) with
  | nil => rfl
  | cons e l => rfl

/-- An oracle that lets the first write succeed, fails the second, and lets
every later write succeed — so a second `set_config` has its commit fail
with a healthy rollback. -/
def failSecondWrite : Nat → Bool := fun n => n != 1

/-- Computation of `set_config` on a store whose file holds an object: the
commit either succeeds, replacing the mapping, or fails, in which case the
rollback rewrite runs and `ConfigWriteException` surfaces with the file
still holding the old mapping and two write attempts consumed. -/
lemma setConfig_obj (w : Nat → Bool) (k : Key) (v : String) (fs : FS)
    (m : ConfigMap) (hfile : fs.file = FileContent.obj m) :
    setConfig w k v fs =
      if w fs.writeIdx then
        (Except.ok (),
         { file := FileContent.obj (storeKey k v m), writeIdx := fs.writeIdx + 1 })
      else
        (Except.error ConfigException.writeError,
         { file := FileContent.obj m, writeIdx := fs.writeIdx + 2 }) := by
  cases hw : w fs.writeIdx with
  | true =>
    simp [setConfig, readConfig, writeConfig, ensureConfigFileExists, hfile, hw]
  | false =>
    cases hw₂ : w (fs.writeIdx + 1) with
    | true =>
      simp [setConfig, readConfig, writeConfig, ensureConfigFileExists, hfile,
        hw, hw₂]
    | false =>
      simp [setConfig, readConfig, writeConfig, ensureConfigFileExists, hfile,
        hw, hw₂]

/-- Computation of `get_config` on a store whose file holds an object. -/
lemma getConfig_obj (k : Key) (fs : FS) (m : ConfigMap)
    (hfile : fs.file = FileContent.obj m) :
    getConfig k fs =
      (Except.ok (if m.isEmpty then none else lookupKey k m), fs) := by
  cases h : m.isEmpty with
  | true =>
    simp [getConfig, readConfig, ensureConfigFileExists, hfile, h]
  | false =>
    simp [getConfig, readConfig, ensureConfigFileExists, hfile, h]

/-! ## Claim theorems: Config Store -/

/-- C5: after a successful `set_config(k0, v0)` on a readable store, a
`set_config(k, v)` whose commit write fails surfaces
`ConfigWriteException`, performs exactly the commit attempt plus the
rollback rewrite of the previous snapshot (two write attempts), leaves the
on-disk config unchanged, and a subsequent `get_config(k0)` still returns
`v0`. -/
theorem setConfig_rollback (w : Nat → Bool) (k0 k : Key) (v0 v : String)
    (m₀ : ConfigMap) (fs₀ : FS)
    (hfile : fs₀.file = FileContent.obj m₀)
    (hset1 : (setConfig w k0 v0 fs₀).1 = Except.ok ())
    (hfail : w ((setConfig w k0 v0 fs₀).2).writeIdx = false) :
    (setConfig w k v ((setConfig w k0 v0 fs₀).2)).1 =
      Except.error ConfigException.writeError ∧
    ((setConfig w k v ((setConfig w k0 v0 fs₀).2)).2).file =
      ((setConfig w k0 v0 fs₀).2).file ∧
    ((setConfig w k v ((setConfig w k0 v0 fs₀).2)).2).writeIdx =
      ((setConfig w k0 v0 fs₀).2).writeIdx + 2 ∧
    (getConfig k0 ((setConfig w k v ((setConfig w k0 v0 fs₀).2)).2)).1 =
      Except.ok (some v0) := by
  have hobj := setConfig_obj w k0 v0 fs₀ m₀ hfile
  cases hw0 : w fs₀.writeIdx with
  | false =>
    rw [hw0] at hobj
    simp only [Bool.false_eq_true, ite_false] at hobj
    rw [hobj] at hset1
    exact absurd hset1 (by simp)
  | true =>
    rw [hw0] at hobj
    simp only [ite_true] at hobj
    rw [hobj] at hfail ⊢
    have hobj₂ := setConfig_obj w k v
      { file := FileContent.obj (storeKey k0 v0 m₀), writeIdx := fs₀.writeIdx + 1 }
      (storeKey k0 v0 m₀) rfl
    rw [hfail] at hobj₂
    simp only [Bool.false_eq_true, ite_false] at hobj₂
    rw [hobj₂]
    refine ⟨rfl, rfl, rfl, ?_⟩
    rw [getConfig_obj k0 _ (storeKey k0 v0 m₀) rfl]
    simp [storeKey_isEmpty, lookupKey_storeKey]

/-- C5 witness: with the first write succeeding, the second failing and the
rollback succeeding, the failed `set_config` surfaces the write error, the
file still holds the first snapshot, and `get_config` returns `"4050"`. -/
theorem setConfig_rollback_witness :
    (setConfig failSecondWrite Key.vm_name "yurt-vm"
        ((setConfig failSecondWrite Key.ssh_port "4050" emptyFS).2)).1 =
      Except.error ConfigException.writeError ∧
    ((setConfig failSecondWrite Key.vm_name "yurt-vm"
        ((setConfig failSecondWrite Key.ssh_port "4050" emptyFS).2)).2).file =
      ((setConfig failSecondWrite Key.ssh_port "4050" emptyFS).2).file ∧
    ((setConfig failSecondWrite Key.vm_name "yurt-vm"
        ((setConfig failSecondWrite Key.ssh_port "4050" emptyFS).2)).2).writeIdx =
      ((setConfig failSecondWrite Key.ssh_port "4050" emptyFS).2).writeIdx + 2 ∧
    (getConfig Key.ssh_port
        ((setConfig failSecondWrite Key.vm_name "yurt-vm"
          ((setConfig failSecondWrite Key.ssh_port "4050" emptyFS).2)).2)).1 =
      Except.ok (some "4050") :=
  setConfig_rollback failSecondWrite Key.ssh_port Key.vm_name "4050" "yurt-vm"
    [] emptyFS rfl rfl rfl

/-- C6 counterexample: with the config file malformed (so the initial read
fails), `set_config` is not a silent no-op — it surfaces
`ConfigReadException` rather than returning without error. -/
theorem setConfig_malformed_not_silent :
    (setConfig alwaysWriteOk Key.ssh_port "4050"
        { file := FileContent.malformed, writeIdx := 0 }).1 =
      Except.error ConfigException.readError ∧
    (setConfig alwaysWriteOk Key.ssh_port "4050"
        { file := FileContent.malformed, writeIdx := 0 }).1 ≠
      Except.ok () :=
  ⟨rfl, fun h => Except.noConfusion h⟩

/-- C6 (amended): when the initial read fails because the config file is
malformed, `set_config` propagates `ConfigReadException` and leaves the
store — file content and write counter — completely unchanged; the silent
no-op arises only when the read succeeds with a null mapping. -/
theorem setConfig_read_failure (w : Nat → Bool) (k : Key) (v : String)
    (fs : FS) (h : fs.file = FileContent.malformed) :
    (setConfig w k v fs).1 = Except.error ConfigException.readError ∧
    (setConfig w k v fs).2 = fs ∧
    (∀ fs₂ : FS, fs₂.file = FileContent.nullValue →
      setConfig w k v fs₂ = (Except.ok (), fs₂)) := by
  refine ⟨?_, ?_, ?_⟩
  · simp [setConfig, readConfig, ensureConfigFileExists, h]
  · simp [setConfig, readConfig, ensureConfigFileExists, h]
  · intro fs₂ h₂
    simp [setConfig, readConfig, ensureConfigFileExists, h₂]

/-- C6 witness: at a malformed file with write counter 3, `set_config`
surfaces the read error and changes nothing; at a null-parsing file it is
the silent no-op. -/
theorem setConfig_read_failure_witness :
    (setConfig alwaysWriteOk Key.vm_name "yurt-vm"
        { file := FileContent.malformed, writeIdx := 3 }).1 =
      Except.error ConfigException.readError ∧
    (setConfig alwaysWriteOk Key.vm_name "yurt-vm"
        { file := FileContent.malformed, writeIdx := 3 }).2 =
      { file := FileContent.malformed, writeIdx := 3 } ∧
    (∀ fs₂ : FS, fs₂.file = FileContent.nullValue →
      setConfig alwaysWriteOk Key.vm_name "yurt-vm" fs₂ = (Except.ok (), fs₂)) :=
  setConfig_read_failure alwaysWriteOk Key.vm_name "yurt-vm"
    { file := FileContent.malformed, writeIdx := 3 } rfl

/-- C7: on a readable store with successful writes, `set_config(k, v)`
followed by `get_config(k)` returns `v`; after `clear()`, `get_config`
returns absent (`None`) for every key; and `get_config` on a readable store
never fails — it returns the (possibly absent) looked-up value. -/
theorem config_round_trip (w : Nat → Bool) (k : Key) (v : String)
    (m : ConfigMap) (fs : FS)
    (hfile : fs.file = FileContent.obj m) (hw : ∀ n, w n = true) :
    (getConfig k ((setConfig w k v fs).2)).1 = Except.ok (some v) ∧
    (∀ k2 : Key, (getConfig k2 ((clearConfig w fs).2)).1 = Except.ok none) ∧
    (∀ k2 : Key, (getConfig k2 fs).1 = Except.ok (lookupKey k2 m)) := by
  refine ⟨?_, ?_, ?_⟩
  · have hobj := setConfig_obj w k v fs m hfile
    rw [hw fs.writeIdx] at hobj
    simp only [ite_true] at hobj
    rw [hobj, getConfig_obj k _ (storeKey k v m) rfl]
    simp [storeKey_isEmpty, lookupKey_storeKey]
  · intro k2
    have hclear : clearConfig w fs =
        (Except.ok (), { file := FileContent.obj [], writeIdx := fs.writeIdx + 1 }) := by
      simp [clearConfig, writeConfig, ensureConfigFileExists, hfile, hw fs.writeIdx]
    rw [hclear, getConfig_obj k2 _ [] rfl]
    simp [List.isEmpty]
  · intro k2
    rw [getConfig_obj k2 fs m hfile]
    cases m with
    | nil => simp [lookupKey, List.lookup]
    | cons e l => simp [List.isEmpty]

/-- C7 witness: on the fresh empty store, setting then getting
`Key.ssh_port` returns `"4050"`; after `clear()` a get returns absent; a
get of an absent key returns absent without error. -/
theorem config_round_trip_witness :
    (getConfig Key.ssh_port
        ((setConfig alwaysWriteOk Key.ssh_port "4050" emptyFS).2)).1 =
      Except.ok (some "4050") ∧
    (getConfig Key.vm_name ((clearConfig alwaysWriteOk emptyFS).2)).1 =
      Except.ok none ∧
    (getConfig Key.vm_name emptyFS).1 = Except.ok (lookupKey Key.vm_name []) := by
  have h := config_round_trip alwaysWriteOk Key.ssh_port "4050" [] emptyFS rfl
    (fun _ => rfl)
  exact ⟨h.1, h.2.1 Key.vm_name, h.2.2 Key.vm_name⟩

end Yurt
